import Mathlib

/-!
Verification development for the TLDM ordnance readiness forecasting core.

The Python source is shallowly embedded: Python floats become `ℚ` (the
programs only perform field arithmetic and comparisons on them), Python ints
become `ℤ`, strings become `String`, `None`-able JSON fields become
`Option`, and a raised-and-caught `ValueError` in the candidate-validation
path becomes `Except Unit`.  The ambient clock (`datetime.now`,
`datetime.utcnow`) and the `uuid4` draw used by `ForecastResult`'s
`forecast_id` default are made explicit as a `PyEnv` argument; calendar
formatting (`strftime`) is abstracted to an injective day stamp `dateStr`.
`statistics.stdev` is embedded exactly as the square root of the sample
variance, which forces `ℝ` in the consumption analyzer.
-/

/-- Intensity enum of `models/forecasting.py` (`IntensityLevel`). -/
inductive IntensityLevel where
  | low
  | medium
  | high
  | critical
deriving DecidableEq

/-- Severity enum of `models/forecasting.py` (`AlertSeverity`). -/
inductive AlertSeverity where
  | low
  | medium
  | high
  | critical
deriving DecidableEq

/-- Risk enum of `models/forecasting.py` (`RiskLevel`). -/
inductive RiskLevel where
  | low
  | medium
  | high
  | critical
deriving DecidableEq

/-- `models/forecasting.py` `UsageData`. -/
structure UsageData where
  date : String
  category : String
  quantity_used : ℤ
  operation_type : String
  location : String
deriving DecidableEq

/-- `models/forecasting.py` `OrdnanceRequirement`. -/
structure OrdnanceRequirement where
  category : String
  quantity : ℤ
  priority : String
deriving DecidableEq

/-- `models/forecasting.py` `ExerciseEvent`. -/
structure ExerciseEvent where
  name : String
  start_date : String
  end_date : String
  intensity : IntensityLevel
  required_ordnance : List OrdnanceRequirement
  participating_units : List String
deriving DecidableEq

/-- `models/forecasting.py` `SupplyChainData`. -/
structure SupplyChainData where
  category : String
  average_lead_time : ℤ
  variability : ℤ
  supplier_reliability : ℚ
  current_backlog : ℤ
deriving DecidableEq

/-- `models/forecasting.py` `ShortageRecord`. -/
structure ShortageRecord where
  category : String
  date : String
  quantity : ℤ
  impact_level : String
deriving DecidableEq

/-- `models/forecasting.py` `HistoricalData`. -/
structure HistoricalData where
  period : String
  readiness : ℚ
  consumption : ℤ
  events : List String
  shortages : List ShortageRecord
deriving DecidableEq

/-- `models/forecasting.py` `InventorySnapshot`. -/
structure InventorySnapshot where
  inventory_id : String
  ordnance_category : String
  ordnance_name : String
  quantity : ℤ
  condition : String
  location : String
  expiry_date : String
deriving DecidableEq

/-- `models/forecasting.py` `ForecastingConfig` with its field defaults. -/
structure ForecastingConfig where
  time_horizon_days : ℤ := 90
  confidence_level : ℚ := 0.95
  risk_tolerance : String := "conservative"
  seasonality_enabled : Bool := true
deriving DecidableEq

/-- `models/forecasting.py` `ForecastingInput`. -/
structure ForecastingInput where
  current_readiness : ℚ
  usage_trends : List UsageData
  scheduled_exercises : List ExerciseEvent
  lead_times : List SupplyChainData
  historical_patterns : List HistoricalData
  inventory_snapshot : List InventorySnapshot
  config : ForecastingConfig := {}
deriving DecidableEq

/-- `models/forecasting.py` `ReadinessProjection`. -/
structure ReadinessProjection where
  days : ℤ
  readiness : ℚ
  confidence_interval : List ℚ
  risk_level : RiskLevel
deriving DecidableEq

/-- `models/forecasting.py` `CriticalAlert`. -/
structure CriticalAlert where
  category : String
  expected_shortage_date : String
  severity : AlertSeverity
  impacted_operations : List String
  current_stock_level : ℤ
  projected_need : ℤ
deriving DecidableEq

/-- `models/forecasting.py` `ProcurementRecommendation`. -/
structure ProcurementRecommendation where
  priority : String
  category : String
  recommended_quantity : ℤ
  deadline : String
  rationale : String
  supplier_lead_time : ℤ
  estimated_cost : Option ℚ := none
deriving DecidableEq

/-- `models/forecasting.py` `OperationImpactAssessment`. -/
structure OperationImpactAssessment where
  exercise_name : String
  readiness_impact : ℚ
  critical_items_affected : List String
  recommendations : List String
deriving DecidableEq

/-- `models/forecasting.py` `MitigationStrategy`. -/
structure MitigationStrategy where
  strategy : String
  effectiveness : ℚ
  implementation_time : ℤ
  impact : String
  items_affected : List String
  cost_estimate : Option ℚ := none
deriving DecidableEq

/-- `models/forecasting.py` `ConfidenceMetrics`. -/
structure ConfidenceMetrics where
  model_accuracy : ℚ
  data_quality_score : ℚ
  forecast_reliability : String
deriving DecidableEq

/-- `models/forecasting.py` `TimeframeProjections`. -/
structure TimeframeProjections where
  current_readiness : ℚ
  projections : List ReadinessProjection
deriving DecidableEq

/-- A JSON-ish metadata value (the `metadata: Dict[str, Any]` entries the
engine actually writes are strings and ints). -/
inductive MetaVal where
  | s : String → MetaVal
  | n : ℤ → MetaVal
deriving DecidableEq

/-- The ambient effects the Python code consumes while building a
`ForecastResult`: the current date (`datetime.now`, in days), the UTC
timestamp (`datetime.utcnow`), and the `uuid4` draw taken by the
`forecast_id` default factory. -/
structure PyEnv where
  nowDay : ℤ
  utcNow : ℤ
  uuidDraw : String
deriving DecidableEq

/-- `strftime` day-stamp formatting, abstracted to an injective encoding of
the day offset. -/
def dateStr (d : ℤ) : String := "D" ++ toString d

/-- The `forecast_id` default factory of `ForecastResult`:
`f"fcst_{date}_{str(uuid.uuid4())[:8]}"`. -/
def mkForecastId (env : PyEnv) : String :=
  "fcst_" ++ dateStr env.nowDay ++ "_" ++ (env.uuidDraw.take 8)

/-- `models/forecasting.py` `ForecastResult`; the two default-factory fields
(`forecast_id`, `generated_at`) are filled from the explicit `PyEnv`. -/
structure ForecastResult where
  forecast_id : String
  generated_at : ℤ
  timeframe : TimeframeProjections
  critical_alerts : List CriticalAlert
  procurement_recommendations : List ProcurementRecommendation
  operation_impact_assessment : List OperationImpactAssessment
  mitigation_strategies : List MitigationStrategy
  confidence_metrics : ConfidenceMetrics
  metadata : List (String × MetaVal)
deriving DecidableEq

/-- `models/forecasting.py` `ScenarioParameters` with its field defaults. -/
structure ScenarioParameters where
  name : String
  description : Option String := none
  exercise_intensity_multiplier : ℚ := 1.0
  additional_events : ℤ := 0
  operational_tempo_increase : ℚ := 0.0
  lead_time_increase_days : ℤ := 0
  supplier_reliability_factor : ℚ := 1.0
  logistics_disruption_probability : ℚ := 0.0
  procurement_delay_days : ℤ := 0
  quantity_reduction_factor : ℚ := 1.0
  budget_constraint_percentage : ℚ := 100.0
  weather_impact_factor : ℚ := 1.0
  geopolitical_tension_level : String := "normal"
  maintenance_schedule_impact : ℚ := 0.0
  demand_volatility_multiplier : ℚ := 1.0
  stockout_cost_factor : ℚ := 1.0
  emergency_procurement_capability : Bool := true
  scenario_duration_days : ℤ := 90
  affected_categories : Option (List String) := none
  probability_weight : ℚ := 1.0
deriving DecidableEq

/-- Python `int(x)` on a float: truncation toward zero. -/
def pyInt (q : ℚ) : ℤ := if 0 ≤ q then ⌊q⌋ else -⌊-q⌋

/-- `services/forecasting_engine.py` `_generate_fallback_forecast`. -/
def generateFallbackForecast (input_data : ForecastingInput) (env : PyEnv) :
    ForecastResult :=
  let current_readiness := input_data.current_readiness
  let trend_decline : ℚ := -0.5
  let projections : List ReadinessProjection := [(30 : ℤ), 60, 90].map (fun (days : ℤ) =>
    let months : ℚ := (days : ℚ) / 30
    let projected_readiness := max 0 (current_readiness + trend_decline * months)
    let margin : ℚ := 5.0
    let confidence_interval :=
      [max 0 (projected_readiness - margin), min 100 (projected_readiness + margin)]
    let risk_level :=
      if projected_readiness < 50 then RiskLevel.critical
      else if projected_readiness < 65 then RiskLevel.high
      else if projected_readiness < 80 then RiskLevel.medium
      else RiskLevel.low
    { days := days, readiness := projected_readiness,
      confidence_interval := confidence_interval, risk_level := risk_level })
  let critical_alerts : List CriticalAlert :=
    if projections.any (fun p => decide (p.readiness < 70)) then
      [{ category := "General Ordnance",
         expected_shortage_date := dateStr (env.nowDay + 45),
         severity := AlertSeverity.medium,
         impacted_operations := ["Standard Operations"],
         current_stock_level := pyInt current_readiness,
         projected_need := 80 }]
    else []
  let procurement_recommendations : List ProcurementRecommendation :=
    if current_readiness < 80 then
      [{ priority := "high", category := "Critical Ordnance",
         recommended_quantity := 100,
         deadline := dateStr (env.nowDay + 30),
         rationale := "Fallback recommendation to maintain readiness above 80%",
         supplier_lead_time := 30 }]
    else []
  { forecast_id := mkForecastId env,
    generated_at := env.utcNow,
    timeframe := { current_readiness := current_readiness, projections := projections },
    critical_alerts := critical_alerts,
    procurement_recommendations := procurement_recommendations,
    operation_impact_assessment := [],
    mitigation_strategies :=
      [{ strategy := "Inventory Optimization", effectiveness := 0.7,
         implementation_time := 14, impact := "Improve readiness by 5-10%",
         items_affected := ["All Categories"] }],
    confidence_metrics :=
      { model_accuracy := 0.70, data_quality_score := 0.65,
        forecast_reliability := "medium" },
    metadata :=
      [("generated_as", MetaVal.s ("fallback_rule_based")),
       ("ai_model", MetaVal.s ("none")),
       ("processing_time_ms", MetaVal.n 0),
       ("data_quality", MetaVal.s ("limited"))] }

/-- One entry of the candidate payload's `timeframe.projections` list, as the
loosely-typed JSON dict the external service returns (`dict.get` defaults
apply to absent keys). -/
structure RawProjection where
  days : Option ℤ := none
  readiness : Option ℚ := none
  confidence_interval : Option (List ℚ) := none
  risk_level : Option String := none
deriving DecidableEq

/-- The candidate payload's `timeframe` dict. -/
structure RawTimeframe where
  projections : Option (List RawProjection) := none
deriving DecidableEq

/-- One entry of the candidate payload's `critical_alerts` list. -/
structure RawAlert where
  category : Option String := none
  expected_shortage_date : Option String := none
  severity : Option String := none
  impacted_operations : Option (List String) := none
  current_stock_level : Option ℤ := none
  projected_need : Option ℤ := none
deriving DecidableEq

/-- One entry of the candidate payload's `procurement_recommendations` list. -/
structure RawRecommendation where
  priority : Option String := none
  category : Option String := none
  recommended_quantity : Option ℤ := none
  deadline : Option String := none
  rationale : Option String := none
  supplier_lead_time : Option ℤ := none
deriving DecidableEq

/-- One entry of the candidate payload's `operation_impact_assessment` list. -/
structure RawImpact where
  exercise_name : Option String := none
  readiness_impact : Option ℚ := none
  critical_items_affected : Option (List String) := none
  recommendations : Option (List String) := none
deriving DecidableEq

/-- One entry of the candidate payload's `mitigation_strategies` list. -/
structure RawStrategy where
  strategy : Option String := none
  effectiveness : Option ℚ := none
  implementation_time : Option ℤ := none
  impact : Option String := none
  items_affected : Option (List String) := none
deriving DecidableEq

/-- The candidate payload's `confidence_metrics` dict. -/
structure RawConfidence where
  model_accuracy : Option ℚ := none
  data_quality_score : Option ℚ := none
  forecast_reliability : Option String := none
deriving DecidableEq

/-- A syntactically well-formed external candidate payload (the parsed JSON
dict handed to `_validate_and_parse_response`). -/
structure RawForecast where
  timeframe : Option RawTimeframe := none
  critical_alerts : Option (List RawAlert) := none
  procurement_recommendations : Option (List RawRecommendation) := none
  operation_impact_assessment : Option (List RawImpact) := none
  mitigation_strategies : Option (List RawStrategy) := none
  confidence_metrics : Option RawConfidence := none
deriving DecidableEq

/-- The `RiskLevel(value)` enum constructor: raises `ValueError` (here
`Except.error ()`) on a string outside the closed enum. -/
def parseRiskLevel (v : String) : Except Unit RiskLevel :=
  if v = "low" then Except.ok RiskLevel.low
  else if v = "medium" then Except.ok RiskLevel.medium
  else if v = "high" then Except.ok RiskLevel.high
  else if v = "critical" then Except.ok RiskLevel.critical
  else Except.error ()

/-- The `AlertSeverity(value)` enum constructor: raises `ValueError` (here
`Except.error ()`) on a string outside the closed enum. -/
def parseAlertSeverity (v : String) : Except Unit AlertSeverity :=
  if v = "low" then Except.ok AlertSeverity.low
  else if v = "medium" then Except.ok AlertSeverity.medium
  else if v = "high" then Except.ok AlertSeverity.high
  else if v = "critical" then Except.ok AlertSeverity.critical
  else Except.error ()

/-- The Python `for`-loop-with-`append` over a fallible body: first raised
error aborts the whole loop. -/
def mapME (f : α → Except Unit β) : List α → Except Unit (List β)
  | [] => Except.ok []
  | a :: as =>
    match f a with
    | Except.error e => Except.error e
    | Except.ok b =>
      match mapME f as with
      | Except.error e => Except.error e
      | Except.ok bs => Except.ok (b :: bs)

/-- The projection-parsing loop body of `_validate_and_parse_response`. -/
def parseProjection (input_data : ForecastingInput) (proj_data : RawProjection) :
    Except Unit ReadinessProjection :=
  match parseRiskLevel (proj_data.risk_level.getD ("medium")) with
  | Except.error e => Except.error e
  | Except.ok risk =>
    Except.ok
      { days := proj_data.days.getD 30,
        readiness := proj_data.readiness.getD input_data.current_readiness,
        confidence_interval := proj_data.confidence_interval.getD [70, 90],
        risk_level := risk }

/-- The alert-parsing loop body of `_validate_and_parse_response`. -/
def parseAlert (env : PyEnv) (alert_data : RawAlert) : Except Unit CriticalAlert :=
  match parseAlertSeverity (alert_data.severity.getD ("medium")) with
  | Except.error e => Except.error e
  | Except.ok sev =>
    Except.ok
      { category := alert_data.category.getD ("Unknown"),
        expected_shortage_date :=
          alert_data.expected_shortage_date.getD (dateStr (env.nowDay + 30)),
        severity := sev,
        impacted_operations := alert_data.impacted_operations.getD [],
        current_stock_level := alert_data.current_stock_level.getD 0,
        projected_need := alert_data.projected_need.getD 0 }

/-- The recommendation-parsing loop body of `_validate_and_parse_response`
(no enum involved, so it cannot fail). -/
def parseRecommendation (env : PyEnv) (rec_data : RawRecommendation) :
    ProcurementRecommendation :=
  { priority := rec_data.priority.getD ("medium"),
    category := rec_data.category.getD ("Unknown"),
    recommended_quantity := rec_data.recommended_quantity.getD 0,
    deadline := rec_data.deadline.getD (dateStr (env.nowDay + 60)),
    rationale := rec_data.rationale.getD ("AI recommendation"),
    supplier_lead_time := rec_data.supplier_lead_time.getD 30 }

/-- The impact-parsing loop body of `_validate_and_parse_response`. -/
def parseImpact (op_data : RawImpact) : OperationImpactAssessment :=
  { exercise_name := op_data.exercise_name.getD ("Unknown Exercise"),
    readiness_impact := op_data.readiness_impact.getD 0,
    critical_items_affected := op_data.critical_items_affected.getD [],
    recommendations := op_data.recommendations.getD [] }

/-- The strategy-parsing loop body of `_validate_and_parse_response`. -/
def parseStrategy (mit_data : RawStrategy) : MitigationStrategy :=
  { strategy := mit_data.strategy.getD ("Unknown Strategy"),
    effectiveness := mit_data.effectiveness.getD 0.5,
    implementation_time := mit_data.implementation_time.getD 7,
    impact := mit_data.impact.getD ("Unknown impact"),
    items_affected := mit_data.items_affected.getD [] }

/-- The confidence-metrics parsing of `_validate_and_parse_response`. -/
def parseConfidence (conf : Option RawConfidence) : ConfidenceMetrics :=
  let conf_data := conf.getD {}
  { model_accuracy := conf_data.model_accuracy.getD 0.85,
    data_quality_score := conf_data.data_quality_score.getD 0.80,
    forecast_reliability := conf_data.forecast_reliability.getD ("medium") }

/-- `services/forecasting_engine.py` `_validate_and_parse_response`; a
`ValueError` escaping it (invalid enum string) is what makes the caller fall
back, so the embedding returns it as `Except.error`. -/
def validateAndParseResponse (forecast_data : RawForecast)
    (input_data : ForecastingInput) (env : PyEnv) : Except Unit ForecastResult :=
  let timeframe_data := forecast_data.timeframe.getD {}
  match mapME (parseProjection input_data) (timeframe_data.projections.getD []) with
  | Except.error e => Except.error e
  | Except.ok projections =>
    match mapME (parseAlert env) (forecast_data.critical_alerts.getD []) with
    | Except.error e => Except.error e
    | Except.ok critical_alerts =>
      Except.ok
        { forecast_id := mkForecastId env,
          generated_at := env.utcNow,
          timeframe :=
            { current_readiness := input_data.current_readiness,
              projections := projections },
          critical_alerts := critical_alerts,
          procurement_recommendations :=
            (forecast_data.procurement_recommendations.getD []).map
              (parseRecommendation env),
          operation_impact_assessment :=
            (forecast_data.operation_impact_assessment.getD []).map parseImpact,
          mitigation_strategies :=
            (forecast_data.mitigation_strategies.getD []).map parseStrategy,
          confidence_metrics := parseConfidence forecast_data.confidence_metrics,
          metadata :=
            [("generated_as", MetaVal.s ("ai_service")),
             ("ai_model", MetaVal.s ("gpt-5")),
             ("processing_time_ms", MetaVal.n 0),
             ("data_quality", MetaVal.s ("high"))] }

/-- `generate_forecast`: validate the external candidate when one is present
and syntactically well-formed; any parse failure (or an absent candidate)
takes the deterministic fallback path. -/
def generateForecast (input_data : ForecastingInput)
    (candidate : Option RawForecast) (env : PyEnv) : ForecastResult :=
  match candidate with
  | none => generateFallbackForecast input_data env
  | some c =>
    match validateAndParseResponse c input_data env with
    | Except.ok r => r
    | Except.error _ => generateFallbackForecast input_data env

/-- `routes/forecasting.py` `_apply_scenario_parameters`. -/
def applyScenarioParameters (base_input : ForecastingInput)
    (scenario : ScenarioParameters) : ForecastingInput :=
  let modified_input := base_input
  let modified_input :=
    if scenario.exercise_intensity_multiplier ≠ 1.0 then
      { modified_input with
        scheduled_exercises := modified_input.scheduled_exercises.map
          (fun exercise =>
            if exercise.intensity = IntensityLevel.medium then
              { exercise with intensity := IntensityLevel.high }
            else if exercise.intensity = IntensityLevel.low then
              { exercise with intensity := IntensityLevel.medium }
            else exercise) }
    else modified_input
  let modified_input :=
    if 0 < scenario.lead_time_increase_days then
      { modified_input with
        lead_times := modified_input.lead_times.map
          (fun supply_data =>
            { supply_data with
              average_lead_time :=
                supply_data.average_lead_time + scenario.lead_time_increase_days }) }
    else modified_input
  modified_input

/-- The `projected_values` dict of `_calculate_accuracy_score`: later
projections with the same `days` key overwrite earlier ones. -/
def lookupProjected (projections : List ReadinessProjection) (d : ℤ) : Option ℚ :=
  (projections.reverse.find? (fun p => decide (p.days = d))).map
    (fun p => p.readiness)

/-- Python `round` to an integer: round-half-to-even (we work over `ℚ`, so
binary floating-point representation error is abstracted away). -/
def pyRoundInt (x : ℚ) : ℤ :=
  let n := ⌊x⌋
  let r := x - n
  if r < 1 / 2 then n
  else if 1 / 2 < r then n + 1
  else if n % 2 = 0 then n else n + 1

/-- Python `round(x, 3)`. -/
def pyRound3 (q : ℚ) : ℚ := (pyRoundInt (1000 * q) : ℚ) / 1000

/-- `routes/forecasting.py` `_calculate_accuracy_score`.  The body runs in a
`try`; an `actual` of `0` on an overlapping horizon raises
`ZeroDivisionError`, the `except` swallows it, and the function returns
`0.0` — which the guard clause here reproduces. -/
def calculateAccuracyScore (projections : List ReadinessProjection)
    (actual_data : List (ℤ × ℚ)) : ℚ :=
  if actual_data.any
      (fun da => (lookupProjected projections da.1).isSome && decide (da.2 = 0)) then 0
  else
    let errors := actual_data.filterMap
      (fun da => (lookupProjected projections da.1).map
        (fun predicted => |predicted - da.2| / da.2))
    if errors.isEmpty then 0
    else pyRound3 (max 0 (1 - errors.sum / (errors.length : ℚ)))

/-- One entry of the `validation_results` list built by
`validate_forecast_predictions`. -/
structure ValidationRecord where
  days : ℤ
  predicted : ℚ
  actual : ℚ
  error : ℚ
  error_percentage : ℚ
  within_confidence_interval : Bool
deriving DecidableEq

/-- The response payload of `validate_forecast_predictions` (the parts the
route computes, before storage). -/
structure ValidationOutcome where
  validation_results : List ValidationRecord
  overall_accuracy : ℚ
  validated_comparisons : ℕ
deriving DecidableEq

/-- The loop body of `validate_forecast_predictions`: the first stored
projection matching the horizon is compared against the actual value. -/
def validationRecordFor (forecast : ForecastResult) (da : ℤ × ℚ) :
    Option ValidationRecord :=
  match forecast.timeframe.projections.find? (fun p => decide (p.days = da.1)) with
  | none => none
  | some matching_projection =>
    let err := |matching_projection.readiness - da.2|
    let error_percentage := if 0 < da.2 then err / da.2 else 0
    some
      { days := da.1,
        predicted := matching_projection.readiness,
        actual := da.2,
        error := err,
        error_percentage := error_percentage,
        within_confidence_interval :=
          decide (matching_projection.confidence_interval.getD 0 0 ≤ da.2 ∧
            da.2 ≤ matching_projection.confidence_interval.getD 1 0) }

/-- `routes/forecasting.py` `validate_forecast_predictions` (Contract B). -/
def validateForecastPredictions (forecast : ForecastResult)
    (actual_data : List (ℤ × ℚ)) : ValidationOutcome :=
  let validation_results := actual_data.filterMap (validationRecordFor forecast)
  let total_error := (validation_results.map (fun r => r.error_percentage)).sum
  let valid_comparisons := validation_results.length
  let overall_accuracy :=
    if 0 < valid_comparisons then 1 - total_error / (valid_comparisons : ℚ) else 0
  { validation_results := validation_results,
    overall_accuracy := max 0 (min 1 overall_accuracy),
    validated_comparisons := valid_comparisons }

/-- `statistics.mean`. -/
def listMean (l : List ℚ) : ℚ := l.sum / (l.length : ℚ)

/-- The sample variance under `statistics.stdev`. -/
def sampleVariance (l : List ℚ) : ℚ :=
  ((l.map (fun x => (x - listMean l) ^ 2)).sum) / ((l.length : ℚ) - 1)

/-- `models/forecasting.py` `ConsumptionPattern`; `volatility` is the float
result of `statistics.stdev`, embedded exactly as a real square root. -/
structure ConsumptionPattern where
  base_consumption_rate : ℚ
  seasonal_adjustments : List (String × ℚ)
  trend_direction : String
  volatility : ℝ
  anomaly_flags : List String

/-- The anomaly flag message appended by `analyze_consumption_patterns`. -/
def anomalyFlagMsg (n : ℕ) : String :=
  toString n ++ " anomalous consumption periods detected"

open Classical in
/-- `services/forecasting_engine.py` `analyze_consumption_patterns`. -/
noncomputable def analyzeConsumptionPatterns (usage_data : List UsageData) :
    ConsumptionPattern :=
  if usage_data = [] then
    { base_consumption_rate := 0,
      seasonal_adjustments := [("current_factor", 1.0)],
      trend_direction := "stable", volatility := 0, anomaly_flags := [] }
  else
    let quantities : List ℚ := usage_data.map (fun usage => (usage.quantity_used : ℚ))
    let base_consumption_rate := if quantities = [] then 0 else listMean quantities
    let volatility : ℝ :=
      if 1 < quantities.length then Real.sqrt (sampleVariance quantities) else 0
    let trend_direction :=
      if 5 ≤ quantities.length then
        let first_half := listMean (quantities.take (quantities.length / 2))
        let second_half := listMean (quantities.drop (quantities.length / 2))
        if second_half > first_half * 1.1 then "increasing"
        else if second_half < first_half * 0.9 then "decreasing"
        else "stable"
      else "stable"
    let anomaly_flags :=
      if 0 < volatility then
        let threshold : ℝ := (base_consumption_rate : ℝ) + 2 * volatility
        let anomalous_count :=
          (quantities.filter (fun x : ℚ => decide ((x : ℝ) > threshold))).length
        if 0 < anomalous_count then [anomalyFlagMsg anomalous_count] else []
      else []
    { base_consumption_rate := base_consumption_rate,
      seasonal_adjustments := [("current_factor", 1.0)],
      trend_direction := trend_direction,
      volatility := volatility,
      anomaly_flags := anomaly_flags }

/-! ### Spec-side comparison definitions

These transcribe the spec sentences under examination (not the source), so
that a divergence can be exhibited as an inequality between the embedded
code and the spec's formula. -/

/-- Contract A exactly as the spec sentence words it: per overlapping
horizon `|predicted − actual| / actual`, entries with `actual = 0` excluded
from the mean, `accuracy = clamp(1 − MAPE, 0, 1)`, and `0.0` when no
horizons overlap. -/
def specAccuracyScore (projections : List ReadinessProjection)
    (actual_data : List (ℤ × ℚ)) : ℚ :=
  let errors := actual_data.filterMap (fun (da : ℤ × ℚ) =>
    match lookupProjected projections da.1 with
    | none => none
    | some predicted =>
      if da.2 = 0 then (none : Option ℚ) else some (|predicted - da.2| / da.2))
  if errors.isEmpty then 0
  else min 1 (max 0 (1 - errors.sum / (errors.length : ℚ)))

/-- The spec's fallback readiness formula `clamp(current_readiness − 0.5 *
horizon/30, 0, 100)` (two-sided clamp). -/
def specClampReadiness (cr horizon : ℚ) : ℚ :=
  min 100 (max 0 (cr - 0.5 * (horizon / 30)))

/-- The intensity step the scenario transformer actually performs:
`medium → high`, `low → medium`, everything else unchanged. -/
def escalateIntensity : IntensityLevel → IntensityLevel
  | IntensityLevel.medium => IntensityLevel.high
  | IntensityLevel.low => IntensityLevel.medium
  | x => x

/-- Erase the only field of a fallback `CriticalAlert` that depends on the
ambient clock. -/
def stripAlertDate (a : CriticalAlert) : CriticalAlert :=
  { a with expected_shortage_date := "" }

/-- Erase the only field of a fallback `ProcurementRecommendation` that
depends on the ambient clock. -/
def stripDeadline (r : ProcurementRecommendation) : ProcurementRecommendation :=
  { r with deadline := "" }

/-- The raw projection list a candidate payload carries
(`forecast_data.get('timeframe', {}).get('projections', [])`). -/
def rawProjections (forecast_data : RawForecast) : List RawProjection :=
  (forecast_data.timeframe.getD {}).projections.getD []

/-! ### Concrete fixtures used by witnesses and counterexamples -/

/-- An input with `current_readiness = 85.0` and no other records. -/
def inputA : ForecastingInput :=
  { current_readiness := 85.0, usage_trends := [], scheduled_exercises := [],
    lead_times := [], historical_patterns := [], inventory_snapshot := [] }

/-- An (unvalidated) input with `current_readiness = 200`. -/
def inputB : ForecastingInput :=
  { current_readiness := 200, usage_trends := [], scheduled_exercises := [],
    lead_times := [], historical_patterns := [], inventory_snapshot := [] }

/-- An input with fractional `current_readiness = 70.9` (low enough that the
fallback emits its alert and recommendation). -/
def inputC : ForecastingInput :=
  { current_readiness := 70.9, usage_trends := [], scheduled_exercises := [],
    lead_times := [], historical_patterns := [], inventory_snapshot := [] }

/-- A scheduled exercise of medium intensity. -/
def exerciseMedium : ExerciseEvent :=
  { name := "Taming Sari", start_date := "2025-03-01", end_date := "2025-03-08",
    intensity := IntensityLevel.medium, required_ordnance := [],
    participating_units := ["KD Lekiu"] }

/-- A supply-chain record. -/
def supplyMissile : SupplyChainData :=
  { category := "Missile", average_lead_time := 45, variability := 10,
    supplier_reliability := 85.0, current_backlog := 0 }

/-- An input carrying one medium exercise and one supply record. -/
def inputEx : ForecastingInput :=
  { current_readiness := 85.0, usage_trends := [],
    scheduled_exercises := [exerciseMedium], lead_times := [supplyMissile],
    historical_patterns := [], inventory_snapshot := [] }

/-- A scenario whose only non-default stressor is the intensity
multiplier. -/
def scenarioIntensity : ScenarioParameters :=
  { name := "tempo", exercise_intensity_multiplier := 1.5 }

/-- A scenario whose supported stressors are at their no-op defaults but
whose unsupported parameters are far from default. -/
def scenarioUnsupportedOnly : ScenarioParameters :=
  { name := "externals", weather_impact_factor := 2.0,
    geopolitical_tension_level := "critical",
    budget_constraint_percentage := 50.0,
    supplier_reliability_factor := 0.5,
    demand_volatility_multiplier := 3.0,
    emergency_procurement_capability := false }

/-- A fixed ambient environment. -/
def envE1 : PyEnv := { nowDay := 0, utcNow := 0, uuidDraw := "aaaaaaaa" }

/-- The same clock as `envE1` but a different `uuid4` draw. -/
def envE2 : PyEnv := { nowDay := 0, utcNow := 0, uuidDraw := "bbbbbbbb" }

/-- A syntactically well-formed candidate whose single projection has
out-of-range readiness `150`, no confidence interval and no risk level. -/
def rawCandidateBad : RawForecast :=
  { timeframe := some { projections := some [{ days := some 30, readiness := some 150 }] } }

/-- A syntactically well-formed candidate whose single projection carries a
risk-level string outside the closed enum. -/
def rawCandidateBadRisk : RawForecast :=
  { timeframe := some { projections := some [{ days := some 30, risk_level := some ("catastrophic") }] } }

/-- Two usage observations with quantities 0 and 4. -/
def usageList2 : List UsageData :=
  [{ date := "2025-01-01", category := "Missile", quantity_used := 0,
     operation_type := "Training", location := "WNAED" },
   { date := "2025-01-02", category := "Missile", quantity_used := 4,
     operation_type := "Training", location := "WNAED" }]

/-- The 30-day projection the fallback produces for `inputA`. -/
def fallbackP30 : ReadinessProjection :=
  { days := 30, readiness := 84.5, confidence_interval := [79.5, 89.5],
    risk_level := RiskLevel.low }

/-- The 90-day projection the fallback produces for `inputC`. -/
def fallbackP90C : ReadinessProjection :=
  { days := 90, readiness := 69.4, confidence_interval := [64.4, 74.4],
    risk_level := RiskLevel.medium }

/-- Two stored projections (the spec's own worked accuracy example). -/
def projectionsP4 : List ReadinessProjection :=
  [{ days := 30, readiness := 84.5, confidence_interval := [79.5, 89.5],
     risk_level := RiskLevel.low },
   { days := 60, readiness := 84.0, confidence_interval := [79, 89],
     risk_level := RiskLevel.low }]

/-- A stored forecast used by the validation (Contract B) claims. -/
def forecastD : ForecastResult :=
  { forecast_id := "f1", generated_at := 0,
    timeframe :=
      { current_readiness := 80,
        projections :=
          [{ days := 30, readiness := 80, confidence_interval := [75, 85],
             risk_level := RiskLevel.low },
           { days := 60, readiness := 85, confidence_interval := [80, 90],
             risk_level := RiskLevel.low }] },
    critical_alerts := [], procurement_recommendations := [],
    operation_impact_assessment := [], mitigation_strategies := [],
    confidence_metrics :=
      { model_accuracy := 0.7, data_quality_score := 0.65,
        forecast_reliability := "medium" },
    metadata := [] }

/-! ### Helper lemmas -/

theorem mapME_ok_mem {α β : Type} {f : α → Except Unit β} :
    ∀ {l : List α} {l' : List β}, mapME f l = Except.ok l' →
      ∀ b ∈ l', ∃ a ∈ l, f a = Except.ok b := by
  intro l
  induction l with
  | nil => intro l' h b hb; simp [mapME] at h; subst h; simp at hb
  | cons a as ih =>
    intro l' h b hb
    rw [mapME] at h
    cases hfa : f a with
    | error e => rw [hfa] at h; cases h
    | ok b₀ =>
      rw [hfa] at h
      cases hrest : mapME f as with
      | error e => rw [hrest] at h; cases h
      | ok bs =>
        rw [hrest] at h
        cases h
        rcases List.mem_cons.mp hb with hb | hb
        · exact ⟨a, List.mem_cons_self a as, hb ▸ hfa⟩
        · obtain ⟨a', ha', hfa'⟩ := ih hrest b hb
          exact ⟨a', List.mem_cons_of_mem a ha', hfa'⟩

theorem mapME_ok_forall {α β : Type} {f : α → Except Unit β} :
    ∀ {l : List α} {l' : List β}, mapME f l = Except.ok l' →
      ∀ a ∈ l, ∃ b, f a = Except.ok b := by
  intro l
  induction l with
  | nil => intro l' _ a ha; simp at ha
  | cons a as ih =>
    intro l' h x hx
    rw [mapME] at h
    cases hfa : f a with
    | error e => rw [hfa] at h; cases h
    | ok b₀ =>
      rw [hfa] at h
      cases hrest : mapME f as with
      | error e => rw [hrest] at h; cases h
      | ok bs =>
        rcases List.mem_cons.mp hx with hx | hx
        · exact ⟨b₀, hx ▸ hfa⟩
        · exact ih hrest x hx

theorem eq_mean_of_sq_sum_zero (m : ℚ) :
    ∀ (l : List ℚ), (l.map (fun x => (x - m) ^ 2)).sum = 0 → ∀ x ∈ l, x = m := by
  intro l
  induction l with
  | nil => intro _ x hx; simp at hx
  | cons a as ih =>
    intro h x hx
    rw [List.map_cons, List.sum_cons] at h
    have h1 : 0 ≤ (a - m) ^ 2 := sq_nonneg _
    have h2 : 0 ≤ (as.map (fun x => (x - m) ^ 2)).sum := by
      apply List.sum_nonneg
      intro y hy
      obtain ⟨z, _, hz⟩ := List.mem_map.mp hy
      exact hz ▸ sq_nonneg _
    have ha : (a - m) ^ 2 = 0 := by linarith
    have has : (as.map (fun x => (x - m) ^ 2)).sum = 0 := by linarith
    rcases List.mem_cons.mp hx with hx | hx
    · have := pow_eq_zero_iff (n := 2) (by norm_num) |>.mp ha
      subst hx
      linarith [sub_eq_zero.mp this]
    · exact ih has x hx

/-! ### C7: no-op scenarios leave the input unchanged -/

/-- C7: applying a scenario whose two supported stressors are at their no-op
defaults (`exercise_intensity_multiplier = 1.0`,
`lead_time_increase_days = 0`) returns the base input unchanged, whatever
values the unsupported parameters (budget, weather, geopolitical,
reliability, …) carry — the transformer is total, so they can never raise. -/
theorem applyScenario_noop (base : ForecastingInput) (s : ScenarioParameters)
    (hmul : s.exercise_intensity_multiplier = 1.0)
    (hlead : s.lead_time_increase_days ≤ 0) :
    applyScenarioParameters base s = base := by
  simp [applyScenarioParameters, hmul, not_lt.mpr hlead]

/-- Witness for `applyScenario_noop`: a scenario with every unsupported
parameter far from its default still returns the base input verbatim. -/
theorem applyScenario_noop_witness :
    scenarioUnsupportedOnly.exercise_intensity_multiplier = 1.0 ∧
    scenarioUnsupportedOnly.lead_time_increase_days ≤ 0 ∧
    applyScenarioParameters inputEx scenarioUnsupportedOnly = inputEx :=
  ⟨rfl, by decide,
    applyScenario_noop inputEx scenarioUnsupportedOnly rfl (by decide)⟩

/-! ### C5: scenario intensity escalation -/

/-- C5 counterexample: with `exercise_intensity_multiplier = 1.5`, a
"medium" exercise becomes "high" after one application but is still "high"
(not "critical") after a second — the transformer never escalates "high". -/
theorem applyScenario_no_critical_counterexample :
    ((applyScenarioParameters (applyScenarioParameters inputEx scenarioIntensity)
        scenarioIntensity).scheduled_exercises.map (fun e => e.intensity)) =
      [IntensityLevel.high] ∧
    IntensityLevel.high ≠ IntensityLevel.critical := by
  constructor
  · norm_num [applyScenarioParameters, scenarioIntensity, inputEx, exerciseMedium]
    decide
  · decide

/-- C5 (amended): a scenario with `exercise_intensity_multiplier ≠ 1.0` maps
every exercise's intensity through the step `low → medium`,
`medium → high`, leaving `high` and `critical` unchanged; in particular a
"medium" exercise becomes "high" after one application and stays "high"
ever after. -/
theorem applyScenario_escalation (base : ForecastingInput) (s : ScenarioParameters)
    (h : s.exercise_intensity_multiplier ≠ 1.0) :
    (applyScenarioParameters base s).scheduled_exercises =
      base.scheduled_exercises.map
        (fun e => { e with intensity := escalateIntensity e.intensity }) ∧
    escalateIntensity IntensityLevel.low = IntensityLevel.medium ∧
    escalateIntensity IntensityLevel.medium = IntensityLevel.high ∧
    escalateIntensity IntensityLevel.high = IntensityLevel.high ∧
    escalateIntensity IntensityLevel.critical = IntensityLevel.critical := by
  refine ⟨?_, rfl, rfl, rfl, rfl⟩
  simp only [applyScenarioParameters, if_pos h,
    apply_ite ForecastingInput.scheduled_exercises]
  rw [ite_self]
  apply List.map_congr_left
  intro e _
  obtain ⟨n, sd, ed, i, ro, pu⟩ := e
  cases i <;> rfl

/-- Witness for `applyScenario_escalation` at the concrete medium-intensity
exercise input. -/
theorem applyScenario_escalation_witness :
    scenarioIntensity.exercise_intensity_multiplier ≠ 1.0 ∧
    (applyScenarioParameters inputEx scenarioIntensity).scheduled_exercises =
      inputEx.scheduled_exercises.map
        (fun e => { e with intensity := escalateIntensity e.intensity }) := by
  have h : scenarioIntensity.exercise_intensity_multiplier ≠ 1.0 := by
    norm_num [scenarioIntensity]
  exact ⟨h, (applyScenario_escalation inputEx scenarioIntensity h).1⟩

/-! ### C6: the fallback projection formula -/

/-- C6 counterexample: the fallback never clamps readiness from above — at
`current_readiness = 200` the 30-day projection is `199.5`, while the spec's
formula `clamp(current_readiness − 0.5*horizon/30, 0, 100)` gives `100`. -/
theorem fallback_no_upper_clamp_counterexample :
    ((generateFallbackForecast inputB envE1).timeframe.projections.map
      (fun p => p.readiness)) = [199.5, 199, 198.5] ∧
    specClampReadiness 200 30 = 100 ∧ ((199.5 : ℚ) ≠ 100) := by
  refine ⟨?_, ?_, by norm_num⟩
  · norm_num [generateFallbackForecast, inputB, max_def, min_def]
  · norm_num [specClampReadiness, max_def, min_def]

/-- C6 (amended): the fallback produces exactly the horizons 30/60/90 with
readiness `max 0 (current_readiness − 0.5*(days/30))` (clamped below at 0
only; this agrees with the claimed two-sided clamp whenever
`current_readiness ≤ 100.5`), interval `[max 0 (r−5), min 100 (r+5)]` and
the claimed risk thresholds; at `current_readiness = 85.0` this is
readiness 84.5/84.0/83.5, intervals `[r−5, r+5]`, all risk "low". -/
theorem fallback_projection_formula (input : ForecastingInput) (env : PyEnv) :
    ((generateFallbackForecast input env).timeframe.projections.map
      (fun p => p.days) = [30, 60, 90]) ∧
    (∀ p ∈ (generateFallbackForecast input env).timeframe.projections,
      p.readiness = max 0 (input.current_readiness - 0.5 * ((p.days : ℚ) / 30)) ∧
      p.confidence_interval = [max 0 (p.readiness - 5), min 100 (p.readiness + 5)] ∧
      p.risk_level = (if p.readiness < 50 then RiskLevel.critical
        else if p.readiness < 65 then RiskLevel.high
        else if p.readiness < 80 then RiskLevel.medium else RiskLevel.low)) ∧
    ((generateFallbackForecast inputA env).timeframe.projections =
      [{ days := 30, readiness := 84.5, confidence_interval := [79.5, 89.5],
         risk_level := RiskLevel.low },
       { days := 60, readiness := 84.0, confidence_interval := [79, 89],
         risk_level := RiskLevel.low },
       { days := 90, readiness := 83.5, confidence_interval := [78.5, 88.5],
         risk_level := RiskLevel.low }]) := by
  refine ⟨rfl, ?_, ?_⟩
  · intro p hp
    simp only [generateFallbackForecast, List.map_cons, List.map_nil,
      List.mem_cons, List.not_mem_nil, or_false] at hp
    rcases hp with hp | hp | hp <;> subst hp <;>
      exact ⟨by norm_num [sub_eq_add_neg], by norm_num, rfl⟩
  · norm_num [generateFallbackForecast, inputA, max_def, min_def]

/-- Witness for `fallback_projection_formula`: its per-projection clause
evaluated at the 30-day projection of the 85.0-readiness input. -/
theorem fallback_projection_formula_witness :
    fallbackP30 ∈ (generateFallbackForecast inputA envE1).timeframe.projections ∧
    fallbackP30.readiness =
      max 0 (inputA.current_readiness - 0.5 * ((fallbackP30.days : ℚ) / 30)) ∧
    fallbackP30.confidence_interval =
      [max 0 (fallbackP30.readiness - 5), min 100 (fallbackP30.readiness + 5)] ∧
    fallbackP30.risk_level = (if fallbackP30.readiness < 50 then RiskLevel.critical
      else if fallbackP30.readiness < 65 then RiskLevel.high
      else if fallbackP30.readiness < 80 then RiskLevel.medium
      else RiskLevel.low) := by
  have hm : fallbackP30 ∈ (generateFallbackForecast inputA envE1).timeframe.projections := by
    norm_num [generateFallbackForecast, inputA, fallbackP30, max_def, min_def]
  exact ⟨hm, (fallback_projection_formula inputA envE1).2.1 fallbackP30 hm⟩

/-! ### C9: fallback alert and recommendation emission -/

/-- C9 counterexample: the alert's `current_stock_level` is `int(cr)` —
truncation — not `round(cr)`: at `current_readiness = 70.9` the emitted
alert carries 70 while the claimed rounding gives 71. -/
theorem fallback_stock_level_counterexample :
    (generateFallbackForecast inputC envE1).critical_alerts.map
      (fun a => a.current_stock_level) = [70] ∧
    round (70.9 : ℚ) = 71 ∧ ((70 : ℤ) ≠ 71) := by
  refine ⟨?_, by rw [round_eq]; norm_num, by decide⟩
  norm_num [generateFallbackForecast, inputC, pyInt, max_def, min_def]

/-- C9 (amended): the fallback emits exactly one `CriticalAlert` (category
"General Ordnance", severity medium, `current_stock_level` the int-truncated
`current_readiness`, `projected_need = 80`) iff some projection has
readiness < 70, and exactly one `ProcurementRecommendation` (priority
"high", quantity 100, lead time 30) iff `current_readiness < 80`. -/
theorem fallback_alerts_recommendations (input : ForecastingInput) (env : PyEnv) :
    ((∃ p ∈ (generateFallbackForecast input env).timeframe.projections,
        p.readiness < 70) →
      (generateFallbackForecast input env).critical_alerts =
        [{ category := "General Ordnance",
           expected_shortage_date := dateStr (env.nowDay + 45),
           severity := AlertSeverity.medium,
           impacted_operations := ["Standard Operations"],
           current_stock_level := pyInt input.current_readiness,
           projected_need := 80 }]) ∧
    ((¬ ∃ p ∈ (generateFallbackForecast input env).timeframe.projections,
        p.readiness < 70) →
      (generateFallbackForecast input env).critical_alerts = []) ∧
    (input.current_readiness < 80 →
      (generateFallbackForecast input env).procurement_recommendations =
        [{ priority := "high", category := "Critical Ordnance",
           recommended_quantity := 100,
           deadline := dateStr (env.nowDay + 30),
           rationale := "Fallback recommendation to maintain readiness above 80%",
           supplier_lead_time := 30 }]) ∧
    (¬ input.current_readiness < 80 →
      (generateFallbackForecast input env).procurement_recommendations = []) := by
  have halerts : (generateFallbackForecast input env).critical_alerts =
      if (generateFallbackForecast input env).timeframe.projections.any
          (fun p => decide (p.readiness < 70)) then
        [{ category := "General Ordnance",
           expected_shortage_date := dateStr (env.nowDay + 45),
           severity := AlertSeverity.medium,
           impacted_operations := ["Standard Operations"],
           current_stock_level := pyInt input.current_readiness,
           projected_need := 80 }]
      else [] := rfl
  have hrecs : (generateFallbackForecast input env).procurement_recommendations =
      if input.current_readiness < 80 then
        [{ priority := "high", category := "Critical Ordnance",
           recommended_quantity := 100,
           deadline := dateStr (env.nowDay + 30),
           rationale := "Fallback recommendation to maintain readiness above 80%",
           supplier_lead_time := 30 }]
      else [] := rfl
  have hcond : ((generateFallbackForecast input env).timeframe.projections.any
      (fun p => decide (p.readiness < 70)) = true) ↔
      ∃ p ∈ (generateFallbackForecast input env).timeframe.projections,
        p.readiness < 70 := by
    simp [List.any_eq_true]
  refine ⟨?_, ?_, ?_, ?_⟩
  · intro h; rw [halerts, if_pos (hcond.mpr h)]
  · intro h; rw [halerts, if_neg (fun hc => h (hcond.mp hc))]
  · intro h; rw [hrecs, if_pos h]
  · intro h; rw [hrecs, if_neg h]

/-- Witness for `fallback_alerts_recommendations` at
`current_readiness = 70.9`: the 90-day projection dips below 70 so exactly
the one alert and the one recommendation appear. -/
theorem fallback_alerts_recommendations_witness :
    (generateFallbackForecast inputC envE1).critical_alerts =
      [{ category := "General Ordnance",
         expected_shortage_date := dateStr (envE1.nowDay + 45),
         severity := AlertSeverity.medium,
         impacted_operations := ["Standard Operations"],
         current_stock_level := pyInt inputC.current_readiness,
         projected_need := 80 }] ∧
    (generateFallbackForecast inputC envE1).procurement_recommendations =
      [{ priority := "high", category := "Critical Ordnance",
         recommended_quantity := 100,
         deadline := dateStr (envE1.nowDay + 30),
         rationale := "Fallback recommendation to maintain readiness above 80%",
         supplier_lead_time := 30 }] := by
  have hex : ∃ p ∈ (generateFallbackForecast inputC envE1).timeframe.projections,
      p.readiness < 70 := by
    refine ⟨fallbackP90C, ?_, by norm_num [fallbackP90C]⟩
    norm_num [generateFallbackForecast, inputC, fallbackP90C, max_def, min_def]
  exact ⟨(fallback_alerts_recommendations inputC envE1).1 hex,
    (fallback_alerts_recommendations inputC envE1).2.2.1 (by norm_num [inputC])⟩

/-! ### C1: the interval/range invariant -/

/-- C1 counterexample: the validated-candidate path keeps an out-of-range
readiness of 150 with default interval `[70, 90]` (violating containment and
the `[0,100]` range), and the fallback path itself exceeds 100 (and its own
interval upper bound of 100) when `current_readiness = 200`. -/
theorem forecast_invariant_counterexample :
    (validateAndParseResponse rawCandidateBad inputA envE1).toOption.map
      (fun r => r.timeframe.projections.map
        (fun p => (p.readiness, p.confidence_interval))) =
      some [(150, [70, 90])] ∧
    ¬ ((150 : ℚ) ≤ 90) ∧ ¬ ((150 : ℚ) ≤ 100) ∧
    ((generateFallbackForecast inputB envE1).timeframe.projections.map
      (fun p => (p.readiness, p.confidence_interval))) =
      [(199.5, [194.5, 100]), (199, [194, 100]), (198.5, [193.5, 100])] ∧
    ¬ ((199.5 : ℚ) ≤ 100) := by
  refine ⟨?_, by norm_num, by norm_num, ?_, by norm_num⟩
  · norm_num [validateAndParseResponse, rawCandidateBad, inputA, mapME,
      parseProjection, Except.toOption,
      show parseRiskLevel ("medium") = Except.ok RiskLevel.medium from rfl]
  · norm_num [generateFallbackForecast, inputB, max_def, min_def]

/-- C1 (amended): every projection of a fallback forecast whose input
`current_readiness` lies in `[0, 100]` satisfies
`confidence_interval[0] ≤ readiness ≤ confidence_interval[1]` and
`0 ≤ readiness ≤ 100` (the validated-candidate path enforces no such
bounds, and the fallback violates them for inputs above 100.5). -/
theorem fallback_interval_invariant (input : ForecastingInput) (env : PyEnv)
    (h0 : 0 ≤ input.current_readiness) (h1 : input.current_readiness ≤ 100) :
    ∀ p ∈ (generateFallbackForecast input env).timeframe.projections,
      p.confidence_interval.getD 0 0 ≤ p.readiness ∧
      p.readiness ≤ p.confidence_interval.getD 1 0 ∧
      0 ≤ p.readiness ∧ p.readiness ≤ 100 := by
  intro p hp
  simp only [generateFallbackForecast, List.map_cons, List.map_nil,
    List.mem_cons, List.not_mem_nil, or_false] at hp
  have key : ∀ m : ℚ, 0 ≤ m →
      max 0 (max 0 (input.current_readiness + -0.5 * m) - 5.0) ≤
        max 0 (input.current_readiness + -0.5 * m) ∧
      max 0 (input.current_readiness + -0.5 * m) ≤
        min 100 (max 0 (input.current_readiness + -0.5 * m) + 5.0) ∧
      0 ≤ max 0 (input.current_readiness + -0.5 * m) ∧
      max 0 (input.current_readiness + -0.5 * m) ≤ 100 := by
    intro m hm
    have hq0 : (0 : ℚ) ≤ max 0 (input.current_readiness + -0.5 * m) :=
      le_max_left 0 _
    have hq100 : max 0 (input.current_readiness + -0.5 * m) ≤ 100 := by
      apply max_le (by norm_num)
      nlinarith
    refine ⟨max_le hq0 (by linarith), le_min hq100 (by norm_num), hq0, hq100⟩
  rcases hp with hp | hp | hp <;> subst hp <;> exact key _ (by norm_num)

/-- Witness for `fallback_interval_invariant` at the 85.0-readiness input
and its 30-day projection. -/
theorem fallback_interval_invariant_witness :
    0 ≤ inputA.current_readiness ∧ inputA.current_readiness ≤ 100 ∧
    (fallbackP30.confidence_interval.getD 0 0 ≤ fallbackP30.readiness ∧
     fallbackP30.readiness ≤ fallbackP30.confidence_interval.getD 1 0 ∧
     0 ≤ fallbackP30.readiness ∧ fallbackP30.readiness ≤ 100) := by
  refine ⟨by norm_num [inputA], by norm_num [inputA], ?_⟩
  exact fallback_interval_invariant inputA envE1 (by norm_num [inputA])
    (by norm_num [inputA]) fallbackP30
    (by norm_num [generateFallbackForecast, inputA, fallbackP30, max_def, min_def])

/-! ### C2: fallback determinism -/

/-- C2 counterexample: two fallback runs over the same input are not
byte-identical — the `uuid4` draw behind `forecast_id` differs between the
calls, so the results differ. -/
theorem fallback_not_identical_counterexample :
    generateFallbackForecast inputA envE1 ≠ generateFallbackForecast inputA envE2 := by
  intro h
  have h2 := congrArg (fun r => r.forecast_id) h
  simp only [generateFallbackForecast] at h2
  exact absurd h2 (by decide)

/-- C2 (amended): with the ambient clock and uuid draw made explicit, the
fallback is a pure function of `(input, env)`, and every field other than
`forecast_id`, `generated_at` and the two date stamps
(`expected_shortage_date`, `deadline`) depends on the input alone. -/
theorem fallback_content_deterministic (input : ForecastingInput) (e₁ e₂ : PyEnv) :
    (generateFallbackForecast input e₁).timeframe =
      (generateFallbackForecast input e₂).timeframe ∧
    (generateFallbackForecast input e₁).critical_alerts.map stripAlertDate =
      (generateFallbackForecast input e₂).critical_alerts.map stripAlertDate ∧
    (generateFallbackForecast input e₁).procurement_recommendations.map stripDeadline =
      (generateFallbackForecast input e₂).procurement_recommendations.map stripDeadline ∧
    (generateFallbackForecast input e₁).operation_impact_assessment =
      (generateFallbackForecast input e₂).operation_impact_assessment ∧
    (generateFallbackForecast input e₁).mitigation_strategies =
      (generateFallbackForecast input e₂).mitigation_strategies ∧
    (generateFallbackForecast input e₁).confidence_metrics =
      (generateFallbackForecast input e₂).confidence_metrics ∧
    (generateFallbackForecast input e₁).metadata =
      (generateFallbackForecast input e₂).metadata := by
  refine ⟨rfl, ?_, ?_, rfl, rfl, rfl, rfl⟩
  · simp only [generateFallbackForecast]
    split <;> simp [stripAlertDate]
  · simp only [generateFallbackForecast]
    split <;> simp [stripDeadline]

/-! ### C4: the accuracy score (Contract A) -/

/-- C4 counterexample: an overlapping horizon with `actual = 0` is not
excluded — the raised division error is caught and the whole call returns
`0.0`, where the spec's formula (excluding the zero entry) gives `1`. -/
theorem accuracy_zero_actual_counterexample :
    calculateAccuracyScore projectionsP4 [(30, 84.5), (60, 0)] = 0 ∧
    specAccuracyScore projectionsP4 [(30, 84.5), (60, 0)] = 1 ∧ ((0 : ℚ) ≠ 1) := by
  have h30 : lookupProjected projectionsP4 30 = some 84.5 := by
    norm_num [lookupProjected, projectionsP4]
  have h60 : lookupProjected projectionsP4 60 = some 84 := by
    norm_num [lookupProjected, projectionsP4]
  refine ⟨?_, ?_, by norm_num⟩
  · norm_num [calculateAccuracyScore, projectionsP4, lookupProjected]
  · simp only [specAccuracyScore, List.filterMap_cons, List.filterMap_nil, h30, h60]
    norm_num

/-- C4 (amended): when every overlapping actual is positive the score is
`clamp(1 − MAPE, 0, 1)` rounded to 3 decimal places; an overlapping actual
of `0` instead makes the whole call return `0.0` (the `ZeroDivisionError`
is caught at the top, so no error propagates, but the entry is not merely
excluded); `0.0` when no horizons overlap (part of `specAccuracyScore`). -/
theorem calculate_accuracy_amended (projections : List ReadinessProjection)
    (actual_data : List (ℤ × ℚ)) :
    ((∃ da ∈ actual_data, (lookupProjected projections da.1).isSome ∧ da.2 = 0) →
      calculateAccuracyScore projections actual_data = 0) ∧
    ((∀ da ∈ actual_data, (lookupProjected projections da.1).isSome → 0 < da.2) →
      calculateAccuracyScore projections actual_data =
        pyRound3 (specAccuracyScore projections actual_data)) := by
  constructor
  · intro h
    obtain ⟨da, hda, hsome, hzero⟩ := h
    rw [calculateAccuracyScore, if_pos]
    exact List.any_eq_true.mpr ⟨da, hda, by simp [hsome, hzero]⟩
  · intro h
    have hnotany : actual_data.any
        (fun da => (lookupProjected projections da.1).isSome &&
          decide (da.2 = 0)) = false := by
      rw [List.any_eq_false]
      intro da hda hcontra
      simp only [Bool.and_eq_true, decide_eq_true_eq] at hcontra
      exact absurd hcontra.2 (ne_of_gt (h da hda hcontra.1))
    have herrs : actual_data.filterMap
        (fun da => (lookupProjected projections da.1).map
          (fun predicted => |predicted - da.2| / da.2)) =
        actual_data.filterMap (fun (da : ℤ × ℚ) =>
          match lookupProjected projections da.1 with
          | none => none
          | some predicted =>
            if da.2 = 0 then (none : Option ℚ)
            else some (|predicted - da.2| / da.2)) := by
      apply List.filterMap_congr
      intro da hda
      cases hl : lookupProjected projections da.1 with
      | none => simp
      | some predicted =>
        have hpos := h da hda (by simp [hl])
        simp [if_neg (ne_of_gt hpos)]
    rw [calculateAccuracyScore, if_neg (by simp [hnotany]), specAccuracyScore]
    simp only [herrs]
    by_cases hE : (actual_data.filterMap (fun (da : ℤ × ℚ) =>
        match lookupProjected projections da.1 with
        | none => none
        | some predicted =>
          if da.2 = 0 then (none : Option ℚ)
          else some (|predicted - da.2| / da.2))).isEmpty
    · rw [if_pos hE, if_pos hE]
      norm_num [pyRound3, pyRoundInt]
    · rw [if_neg hE, if_neg hE]
      have hmem : ∀ e ∈ actual_data.filterMap (fun (da : ℤ × ℚ) =>
          match lookupProjected projections da.1 with
          | none => none
          | some predicted =>
            if da.2 = 0 then (none : Option ℚ)
            else some (|predicted - da.2| / da.2)), 0 ≤ e := by
        intro e he
        obtain ⟨da, hda, hfa⟩ := List.mem_filterMap.mp he
        cases hl : lookupProjected projections da.1 with
        | none => rw [hl] at hfa; cases hfa
        | some predicted =>
          rw [hl] at hfa
          have hpos := h da hda (by simp [hl])
          simp [ne_of_gt hpos] at hfa
          exact hfa ▸ div_nonneg (abs_nonneg _) hpos.le
      have hsum := List.sum_nonneg hmem
      have hlen : (0 : ℚ) ≤ ((actual_data.filterMap (fun (da : ℤ × ℚ) =>
          match lookupProjected projections da.1 with
          | none => none
          | some predicted =>
            if da.2 = 0 then (none : Option ℚ)
            else some (|predicted - da.2| / da.2))).length : ℚ) := by positivity
      have hmape : 0 ≤ (actual_data.filterMap (fun (da : ℤ × ℚ) =>
          match lookupProjected projections da.1 with
          | none => none
          | some predicted =>
            if da.2 = 0 then (none : Option ℚ)
            else some (|predicted - da.2| / da.2))).sum /
          ((actual_data.filterMap (fun (da : ℤ × ℚ) =>
            match lookupProjected projections da.1 with
            | none => none
            | some predicted =>
              if da.2 = 0 then (none : Option ℚ)
              else some (|predicted - da.2| / da.2))).length : ℚ) :=
        div_nonneg hsum hlen
      rw [min_eq_right (max_le (by norm_num) (by linarith))]

/-- Witness for `calculate_accuracy_amended`: at the spec's own worked
example (predictions 84.5/84.0, actuals 80/90, all positive) the code's
score is the rounded clamped MAPE formula. -/
theorem calculate_accuracy_amended_witness :
    calculateAccuracyScore projectionsP4 [(30, 80), (60, 90)] =
      pyRound3 (specAccuracyScore projectionsP4 [(30, 80), (60, 90)]) :=
  (calculate_accuracy_amended projectionsP4 [(30, 80), (60, 90)]).2
    (by intro da hda; fin_cases hda <;> norm_num)

/-! ### C3: candidate normalization -/

/-- C3 counterexample: a well-formed candidate with readiness 150 and no
interval/risk fields passes through unclamped, with the fixed default
interval `[70, 90]` (not `[readiness, readiness]`) — so neither the claimed
clamping nor the claimed interval default, ordering or containment
enforcement happens. -/
theorem validate_no_normalization_counterexample :
    (validateAndParseResponse rawCandidateBad inputA envE1).toOption.map
      (fun r => r.timeframe.projections.map
        (fun p => (p.readiness, p.confidence_interval, p.risk_level))) =
      some [(150, [70, 90], RiskLevel.medium)] ∧
    ¬ ((150 : ℚ) ≤ 100) ∧ ([(70 : ℚ), 90] ≠ [(150 : ℚ), 150]) := by
  refine ⟨?_, by norm_num, by norm_num⟩
  norm_num [validateAndParseResponse, rawCandidateBad, inputA, mapME,
    parseProjection, Except.toOption,
    show parseRiskLevel ("medium") = Except.ok RiskLevel.medium from rfl]

/-- C3 (amended): the validate-candidate path only fills `dict.get`
defaults: per projection, absent `days` ↦ 30, absent `readiness` ↦ the
input's `current_readiness`, absent `confidence_interval` ↦ the fixed
`[70, 90]`, absent `risk_level` ↦ "medium"; present values are kept
verbatim (no clamping, no interval reordering or widening), and a
`risk_level` string outside the enum aborts the whole candidate (the
`ValueError` sends the caller to the fallback) instead of being coerced. -/
theorem validate_parse_amended (fd : RawForecast) (input : ForecastingInput)
    (env : PyEnv) :
    (∀ r, validateAndParseResponse fd input env = Except.ok r →
      r.timeframe.current_readiness = input.current_readiness ∧
      ∀ p ∈ r.timeframe.projections, ∃ raw ∈ rawProjections fd,
        p.days = raw.days.getD 30 ∧
        p.readiness = raw.readiness.getD input.current_readiness ∧
        p.confidence_interval = raw.confidence_interval.getD [70, 90] ∧
        parseRiskLevel (raw.risk_level.getD ("medium")) = Except.ok p.risk_level) ∧
    ((∃ raw ∈ rawProjections fd,
        parseRiskLevel (raw.risk_level.getD ("medium")) = Except.error ()) →
      validateAndParseResponse fd input env = Except.error ()) := by
  constructor
  · intro r hr
    rw [validateAndParseResponse] at hr
    cases hm1 : mapME (parseProjection input)
        ((fd.timeframe.getD {}).projections.getD []) with
    | error e => rw [hm1] at hr; cases hr
    | ok ps =>
      rw [hm1] at hr
      cases hm2 : mapME (parseAlert env) (fd.critical_alerts.getD []) with
      | error e => rw [hm2] at hr; cases hr
      | ok as =>
        rw [hm2] at hr
        injection hr with hr
        subst hr
        refine ⟨rfl, ?_⟩
        intro p hp
        obtain ⟨raw, hraw, hparse⟩ := mapME_ok_mem hm1 p hp
        rw [parseProjection] at hparse
        cases hrl : parseRiskLevel (raw.risk_level.getD ("medium")) with
        | error e => rw [hrl] at hparse; cases hparse
        | ok risk =>
          rw [hrl] at hparse
          injection hparse with hparse
          subst hparse
          exact ⟨raw, hraw, rfl, rfl, rfl, by rw [hrl]⟩
  · intro h
    obtain ⟨raw, hraw, hbad⟩ := h
    cases hm1 : mapME (parseProjection input)
        ((fd.timeframe.getD {}).projections.getD []) with
    | error e =>
      rw [validateAndParseResponse, hm1]
    | ok ps =>
      obtain ⟨b, hb⟩ := mapME_ok_forall hm1 raw hraw
      rw [parseProjection, hbad] at hb
      cases hb

/-- Witness for `validate_parse_amended`: a candidate whose projection
carries the out-of-enum risk string "catastrophic" makes the validate path
raise (and hence the engine fall back) rather than coerce to "medium". -/
theorem validate_parse_amended_witness :
    validateAndParseResponse rawCandidateBadRisk inputA envE1 = Except.error () :=
  (validate_parse_amended rawCandidateBadRisk inputA envE1).2
    ⟨{ days := some 30, risk_level := some ("catastrophic") },
      by simp [rawCandidateBadRisk, rawProjections], rfl⟩

/-! ### C10: zero actuals in the validation route (Contract B) -/

theorem validation_error_pct_nonneg (forecast : ForecastResult)
    (A : List (ℤ × ℚ)) :
    ∀ r ∈ A.filterMap (validationRecordFor forecast), 0 ≤ r.error_percentage := by
  intro r hr
  obtain ⟨da, hda, hsome⟩ := List.mem_filterMap.mp hr
  rw [validationRecordFor] at hsome
  cases hf : forecast.timeframe.projections.find? (fun p => decide (p.days = da.1)) with
  | none => rw [hf] at hsome; cases hsome
  | some mp =>
    rw [hf] at hsome
    injection hsome with hsome
    subst hsome
    by_cases hpos : 0 < da.2
    · simpa [hpos] using div_nonneg (abs_nonneg _) hpos.le
    · simp [hpos]

/-- C10 counterexample: at a stored forecast with exact 30-day prediction,
adding the zero-actual horizon 60 yields a counted record with
`error_percentage = 0` but leaves `overall_accuracy` unchanged (1 = 1) — so
a zero actual does not always increase the reported accuracy. -/
theorem validation_zero_counted_counterexample :
    (validateForecastPredictions forecastD [(30, 80), (60, 0)]).validation_results.map
      (fun r => r.error_percentage) = [0, 0] ∧
    (validateForecastPredictions forecastD [(30, 80), (60, 0)]).validated_comparisons = 2 ∧
    (validateForecastPredictions forecastD [(30, 80), (60, 0)]).overall_accuracy = 1 ∧
    (validateForecastPredictions forecastD [(30, 80)]).overall_accuracy = 1 := by
  have h1 : validationRecordFor forecastD (30, 80) =
      some { days := 30, predicted := 80, actual := 80, error := 0,
             error_percentage := 0, within_confidence_interval := true } := by
    norm_num [validationRecordFor, forecastD]
  have h2 : validationRecordFor forecastD (60, 0) =
      some { days := 60, predicted := 85, actual := 0, error := 85,
             error_percentage := 0, within_confidence_interval := false } := by
    norm_num [validationRecordFor, forecastD]
  refine ⟨?_, ?_, ?_, ?_⟩ <;>
    simp [validateForecastPredictions, List.filterMap_cons, h1, h2,
      max_def, min_def]

theorem clampacc_append_zero_mono (T : ℚ) (n : ℕ) (hT : 0 ≤ T) :
    max 0 (min 1 (if 0 < n then 1 - T / (n : ℚ) else 0)) ≤
      max 0 (min 1 (1 - T / ((n : ℚ) + 1))) := by
  rcases Nat.eq_zero_or_pos n with hn | hn
  · subst hn
    simp
  · rw [if_pos hn]
    have hn' : (0 : ℚ) < n := by exact_mod_cast hn
    have hstep : T / ((n : ℚ) + 1) ≤ T / n := by
      gcongr
      linarith
    exact max_le_max le_rfl (min_le_min le_rfl (by linarith))

theorem clampacc_append_zero_strict (T : ℚ) (n : ℕ) (hn : 0 < n) (hTpos : 0 < T)
    (hTlt : T < (n : ℚ) + 1) :
    max 0 (min 1 (if 0 < n then 1 - T / (n : ℚ) else 0)) <
      max 0 (min 1 (1 - T / ((n : ℚ) + 1))) := by
  rw [if_pos hn]
  have hn' : (0 : ℚ) < n := by exact_mod_cast hn
  have hstep : T / ((n : ℚ) + 1) < T / n :=
    div_lt_div_of_pos_left hTpos hn' (by linarith)
  have hlt1 : T / ((n : ℚ) + 1) < 1 := by
    rw [div_lt_one (by linarith)]
    linarith
  have h2 : 0 ≤ 1 - T / ((n : ℚ) + 1) := by linarith
  have h1 : 1 - T / ((n : ℚ) + 1) ≤ 1 := by
    have : 0 ≤ T / ((n : ℚ) + 1) := div_nonneg hTpos.le (by linarith)
    linarith
  rw [min_eq_right h1, max_eq_right h2]
  apply max_lt (by linarith)
  calc min 1 (1 - T / (n : ℚ)) ≤ 1 - T / n := min_le_right _ _
    _ < 1 - T / ((n : ℚ) + 1) := by linarith

theorem clampacc_append_zero_strict_iff (T : ℚ) (n : ℕ) (hT : 0 ≤ T)
    (hTn : n = 0 → T = 0) :
    (max 0 (min 1 (if 0 < n then 1 - T / (n : ℚ) else 0)) <
      max 0 (min 1 (1 - T / ((n : ℚ) + 1)))) ↔
    (n = 0 ∨ (0 < T ∧ T < (n : ℚ) + 1)) := by
  rcases Nat.eq_zero_or_pos n with hn | hn
  · subst hn
    rw [hTn rfl]
    norm_num
  · have hn' : (0 : ℚ) < n := by exact_mod_cast hn
    constructor
    · intro hlt
      refine Or.inr ?_
      rcases eq_or_lt_of_le hT with hT0 | hT0
      · exfalso
        rw [if_pos hn, ← hT0] at hlt
        norm_num at hlt
      · refine ⟨hT0, ?_⟩
        by_contra hTge
        push_neg at hTge
        have h1 : 1 - T / ((n : ℚ) + 1) ≤ 0 := by
          have hone : (1 : ℚ) ≤ T / ((n : ℚ) + 1) :=
            (one_le_div (by linarith)).mpr hTge
          linarith
        have h2 : 1 - T / (n : ℚ) ≤ 0 := by
          have hmono : T / ((n : ℚ) + 1) ≤ T / n := by
            gcongr
            linarith
          linarith
        have e1 : max 0 (min 1 (1 - T / ((n : ℚ) + 1))) = 0 :=
          max_eq_left (le_trans (min_le_right _ _) h1)
        have e2 : max 0 (min 1 (1 - T / (n : ℚ))) = 0 :=
          max_eq_left (le_trans (min_le_right _ _) h2)
        rw [if_pos hn, e1, e2] at hlt
        exact lt_irrefl _ hlt
    · intro h
      rcases h with h0 | ⟨hT0, hTlt⟩
      · exact absurd h0 (by omega)
      · exact clampacc_append_zero_strict T n hn hT0 hTlt

/-- C10 (amended): an overlapping horizon with `actual ≤ 0` is not skipped:
it appends a validation record with `error_percentage = 0` that is counted
in `validated_comparisons`; including it never lowers `overall_accuracy`
relative to excluding it, and strictly raises it exactly when no other
horizon overlaps (the accuracy then jumps from 0 to 1) or the other
records' total error percentage `T` satisfies `0 < T < n + 1` (with `n`
their count) — in particular it is unchanged when the other predictions
are all exact. -/
theorem validation_zero_actual_amended (forecast : ForecastResult)
    (A : List (ℤ × ℚ)) (d : ℤ) (a : ℚ) (proj : ReadinessProjection)
    (ha : a ≤ 0)
    (hm : forecast.timeframe.projections.find? (fun p => decide (p.days = d)) =
      some proj) :
    (validateForecastPredictions forecast (A ++ [(d, a)])).validation_results =
      (validateForecastPredictions forecast A).validation_results ++
        [{ days := d, predicted := proj.readiness, actual := a,
           error := |proj.readiness - a|, error_percentage := 0,
           within_confidence_interval :=
             decide (proj.confidence_interval.getD 0 0 ≤ a ∧
               a ≤ proj.confidence_interval.getD 1 0) }] ∧
    (validateForecastPredictions forecast (A ++ [(d, a)])).validated_comparisons =
      (validateForecastPredictions forecast A).validated_comparisons + 1 ∧
    (validateForecastPredictions forecast A).overall_accuracy ≤
      (validateForecastPredictions forecast (A ++ [(d, a)])).overall_accuracy ∧
    ((validateForecastPredictions forecast A).overall_accuracy <
        (validateForecastPredictions forecast (A ++ [(d, a)])).overall_accuracy ↔
      ((validateForecastPredictions forecast A).validated_comparisons = 0 ∨
        (0 < ((validateForecastPredictions forecast A).validation_results.map
            (fun r => r.error_percentage)).sum ∧
          ((validateForecastPredictions forecast A).validation_results.map
            (fun r => r.error_percentage)).sum <
            ((validateForecastPredictions forecast A).validated_comparisons : ℚ) + 1))) := by
  have hrec : validationRecordFor forecast (d, a) =
      some { days := d, predicted := proj.readiness, actual := a,
             error := |proj.readiness - a|, error_percentage := 0,
             within_confidence_interval :=
               decide (proj.confidence_interval.getD 0 0 ≤ a ∧
                 a ≤ proj.confidence_interval.getD 1 0) } := by
    rw [validationRecordFor, hm]
    simp [not_lt.mpr ha]
  have happ : (A ++ [(d, a)]).filterMap (validationRecordFor forecast) =
      A.filterMap (validationRecordFor forecast) ++
        [{ days := d, predicted := proj.readiness, actual := a,
           error := |proj.readiness - a|, error_percentage := 0,
           within_confidence_interval :=
             decide (proj.confidence_interval.getD 0 0 ≤ a ∧
               a ≤ proj.confidence_interval.getD 1 0) }] := by
    rw [List.filterMap_append]
    simp [hrec]
  have hres : ∀ B : List (ℤ × ℚ),
      (validateForecastPredictions forecast B).validation_results =
        B.filterMap (validationRecordFor forecast) := fun B => rfl
  have hcomp : ∀ B : List (ℤ × ℚ),
      (validateForecastPredictions forecast B).validated_comparisons =
        (B.filterMap (validationRecordFor forecast)).length := fun B => rfl
  have hacc : ∀ B : List (ℤ × ℚ),
      (validateForecastPredictions forecast B).overall_accuracy =
        max 0 (min 1 (if 0 < (B.filterMap (validationRecordFor forecast)).length then
          1 - ((B.filterMap (validationRecordFor forecast)).map
            (fun r => r.error_percentage)).sum /
              ((B.filterMap (validationRecordFor forecast)).length : ℚ)
        else 0)) := fun B => rfl
  have hT0 : 0 ≤ ((A.filterMap (validationRecordFor forecast)).map
      (fun r => r.error_percentage)).sum := by
    apply List.sum_nonneg
    intro x hx
    obtain ⟨r, hr, hrx⟩ := List.mem_map.mp hx
    exact hrx ▸ validation_error_pct_nonneg forecast A r hr
  obtain ⟨rec, hrec0, happ'⟩ :
      ∃ rec : ValidationRecord, rec.error_percentage = 0 ∧
        (A ++ [(d, a)]).filterMap (validationRecordFor forecast) =
          A.filterMap (validationRecordFor forecast) ++ [rec] := ⟨_, rfl, happ⟩
  have hsum1 : ((A.filterMap (validationRecordFor forecast) ++ [rec]).map
      (fun r => r.error_percentage)).sum =
      ((A.filterMap (validationRecordFor forecast)).map
        (fun r => r.error_percentage)).sum := by
    simp [hrec0]
  have hlen1 : (((A.filterMap (validationRecordFor forecast) ++ [rec]).length) : ℚ) =
      ((A.filterMap (validationRecordFor forecast)).length : ℚ) + 1 := by
    push_cast [List.length_append, List.length_cons, List.length_nil]
    ring
  have hpos1 : 0 < (A.filterMap (validationRecordFor forecast) ++ [rec]).length := by
    simp
  refine ⟨by rw [hres, hres, happ], by rw [hcomp, hcomp, happ]; simp, ?_, ?_⟩
  · rw [hacc A, hacc (A ++ [(d, a)]), happ', hsum1, hlen1, if_pos hpos1]
    exact clampacc_append_zero_mono _ _ hT0
  · have hTnil : (A.filterMap (validationRecordFor forecast)).length = 0 →
        ((A.filterMap (validationRecordFor forecast)).map
          (fun r => r.error_percentage)).sum = 0 := by
      intro h0
      rw [List.length_eq_zero.mp h0]
      simp
    rw [hres, hcomp, hacc A, hacc (A ++ [(d, a)]), happ', hsum1, hlen1,
      if_pos hpos1]
    exact clampacc_append_zero_strict_iff _ _ hT0 hTnil

/-- Witness for `validation_zero_actual_amended`: at `forecastD` with one
genuinely erroneous record (predicted 80, actual 75) adding the zero-actual
horizon 60 strictly raises the reported accuracy and bumps the comparison
count. -/
theorem validation_zero_actual_amended_witness :
    (validateForecastPredictions forecastD [(30, 75)]).overall_accuracy ≤
      (validateForecastPredictions forecastD ([(30, 75)] ++ [(60, 0)])).overall_accuracy ∧
    (validateForecastPredictions forecastD [(30, 75)]).overall_accuracy <
      (validateForecastPredictions forecastD ([(30, 75)] ++ [(60, 0)])).overall_accuracy ∧
    (validateForecastPredictions forecastD ([(30, 75)] ++ [(60, 0)])).validated_comparisons =
      (validateForecastPredictions forecastD [(30, 75)]).validated_comparisons + 1 := by
  have h := validation_zero_actual_amended forecastD [(30, 75)] 60 0
    { days := 60, readiness := 85, confidence_interval := [80, 90],
      risk_level := RiskLevel.low }
    (by norm_num) (by simp [forecastD])
  have h3 : validationRecordFor forecastD (30, 75) =
      some { days := 30, predicted := 80, actual := 75, error := 5,
             error_percentage := 1 / 15, within_confidence_interval := true } := by
    norm_num [validationRecordFor, forecastD]
  refine ⟨h.2.2.1, h.2.2.2.mpr (Or.inr ⟨?_, ?_⟩), h.2.1⟩ <;>
    norm_num [validateForecastPredictions, List.filterMap_cons, h3]

/-! ### C8: consumption-pattern analysis -/

theorem eq_mean_of_variance_nonpos (l : List ℚ) (h2 : 2 ≤ l.length)
    (hv : sampleVariance l ≤ 0) : ∀ x ∈ l, x = listMean l := by
  have hpos : (0 : ℚ) < (l.length : ℚ) - 1 := by
    have h2' : (2 : ℚ) ≤ (l.length : ℚ) := by exact_mod_cast h2
    linarith
  have hS : 0 ≤ (l.map (fun x => (x - listMean l) ^ 2)).sum := by
    apply List.sum_nonneg
    intro y hy
    obtain ⟨z, _, hz⟩ := List.mem_map.mp hy
    exact hz ▸ sq_nonneg _
  have hS0 : (l.map (fun x => (x - listMean l) ^ 2)).sum = 0 := by
    rw [sampleVariance] at hv
    have hmul := mul_le_mul_of_nonneg_right hv hpos.le
    rw [div_mul_cancel₀ _ (ne_of_gt hpos), zero_mul] at hmul
    linarith
  exact eq_mean_of_sq_sum_zero (listMean l) l hS0

/-- C8: the consumption analysis of a sequence of usage observations:
empty input gives the zero/stable pattern; otherwise the base rate is the
mean of `quantity_used`, volatility the sample standard deviation (0 below
2 observations), the trend comes from the first-half/second-half split
(extra element to the second half, thresholds 1.1/0.9, only from 5
observations), and there is exactly one anomaly flag iff some observation
exceeds `base + 2·volatility`. -/
theorem analyze_consumption_spec (usage_data : List UsageData) :
    (usage_data = [] →
      analyzeConsumptionPatterns usage_data =
        { base_consumption_rate := 0,
          seasonal_adjustments := [("current_factor", 1.0)],
          trend_direction := "stable", volatility := 0, anomaly_flags := [] }) ∧
    (usage_data ≠ [] →
      (analyzeConsumptionPatterns usage_data).base_consumption_rate =
        listMean (usage_data.map (fun u => (u.quantity_used : ℚ))) ∧
      (analyzeConsumptionPatterns usage_data).volatility =
        (if 2 ≤ usage_data.length then
          Real.sqrt (sampleVariance (usage_data.map (fun u => (u.quantity_used : ℚ))))
        else 0) ∧
      (analyzeConsumptionPatterns usage_data).trend_direction =
        (if 5 ≤ usage_data.length then
          (if listMean ((usage_data.map (fun u => (u.quantity_used : ℚ))).drop
                (usage_data.length / 2)) >
              listMean ((usage_data.map (fun u => (u.quantity_used : ℚ))).take
                (usage_data.length / 2)) * 1.1 then "increasing"
           else if listMean ((usage_data.map (fun u => (u.quantity_used : ℚ))).drop
                (usage_data.length / 2)) <
              listMean ((usage_data.map (fun u => (u.quantity_used : ℚ))).take
                (usage_data.length / 2)) * 0.9 then "decreasing"
           else "stable")
        else "stable") ∧
      ((analyzeConsumptionPatterns usage_data).anomaly_flags ≠ [] ↔
        ∃ u ∈ usage_data, ((u.quantity_used : ℚ) : ℝ) >
          ((analyzeConsumptionPatterns usage_data).base_consumption_rate : ℝ) +
            2 * (analyzeConsumptionPatterns usage_data).volatility) ∧
      (analyzeConsumptionPatterns usage_data).anomaly_flags.length ≤ 1) := by
  classical
  constructor
  · intro h
    subst h
    rfl
  · intro hne
    set q := usage_data.map (fun usage => (usage.quantity_used : ℚ)) with hqdef
    have hqne : q ≠ [] := by simpa [hqdef] using hne
    have hlen : q.length = usage_data.length := by rw [hqdef, List.length_map]
    have hbase : (analyzeConsumptionPatterns usage_data).base_consumption_rate =
        listMean q := by
      rw [analyzeConsumptionPatterns, if_neg hne]
      exact if_neg hqne
    have hvol : (analyzeConsumptionPatterns usage_data).volatility =
        if 1 < q.length then Real.sqrt (sampleVariance q) else 0 := by
      rw [analyzeConsumptionPatterns, if_neg hne]
    have htrend : (analyzeConsumptionPatterns usage_data).trend_direction =
        if 5 ≤ q.length then
          (if listMean (q.drop (q.length / 2)) > listMean (q.take (q.length / 2)) * 1.1
            then "increasing"
           else if listMean (q.drop (q.length / 2)) <
              listMean (q.take (q.length / 2)) * 0.9 then "decreasing"
           else "stable")
        else "stable" := by
      rw [analyzeConsumptionPatterns, if_neg hne]
    have hflags : (analyzeConsumptionPatterns usage_data).anomaly_flags =
        if 0 < (if 1 < q.length then Real.sqrt (sampleVariance q) else (0 : ℝ)) then
          (if 0 < (q.filter (fun x : ℚ => decide ((x : ℝ) >
              (((if q = [] then 0 else listMean q) : ℚ) : ℝ) +
                2 * (if 1 < q.length then Real.sqrt (sampleVariance q) else (0 : ℝ))))).length
            then
              [anomalyFlagMsg (q.filter (fun x : ℚ => decide ((x : ℝ) >
                (((if q = [] then 0 else listMean q) : ℚ) : ℝ) +
                  2 * (if 1 < q.length then Real.sqrt (sampleVariance q) else (0 : ℝ))))).length]
            else [])
        else [] := by
      rw [analyzeConsumptionPatterns, if_neg hne]
    rw [if_neg hqne] at hflags
    refine ⟨hbase, ?_, ?_, ?_, ?_⟩
    · rw [hvol, hlen]
      exact if_congr (by omega) rfl rfl
    · rw [htrend, hlen]
    · rw [hflags, hbase, hvol]
      have hmem : ∀ t : ℝ, (∃ x ∈ q, (x : ℝ) > t) ↔
          (∃ u ∈ usage_data, ((u.quantity_used : ℚ) : ℝ) > t) := by
        intro t
        rw [hqdef]
        simp [List.mem_map]
      by_cases hv : 0 < (if 1 < q.length then Real.sqrt (sampleVariance q) else (0 : ℝ))
      · rw [if_pos hv]
        by_cases hc : 0 < (q.filter (fun x : ℚ => decide ((x : ℝ) >
            ((listMean q : ℚ) : ℝ) +
              2 * (if 1 < q.length then Real.sqrt (sampleVariance q) else (0 : ℝ))))).length
        · rw [if_pos hc]
          refine ⟨fun _ => ?_, fun _ => List.cons_ne_nil _ _⟩
          rw [List.length_pos] at hc
          obtain ⟨x, hx⟩ := List.exists_mem_of_ne_nil _ hc
          have hx' := List.mem_filter.mp hx
          rw [← hmem]
          exact ⟨x, hx'.1, of_decide_eq_true hx'.2⟩
        · rw [if_neg hc]
          refine ⟨fun hcon => absurd rfl hcon, fun hex => ?_⟩
          exfalso
          apply hc
          rw [← hmem] at hex
          obtain ⟨x, hxq, hxt⟩ := hex
          rw [List.length_pos]
          exact List.ne_nil_of_mem (List.mem_filter.mpr ⟨hxq, decide_eq_true hxt⟩)
      · rw [if_neg hv]
        refine ⟨fun hcon => absurd rfl hcon, fun hex => ?_⟩
        rw [← hmem] at hex
        by_cases h2 : 1 < q.length
        · rw [if_pos h2] at hv hex
          have hsq0 : Real.sqrt ((sampleVariance q : ℚ) : ℝ) = 0 :=
            le_antisymm (not_lt.mp hv) (Real.sqrt_nonneg _)
          have hvar : sampleVariance q ≤ 0 := by
            have hcast := Real.sqrt_eq_zero'.mp hsq0
            exact_mod_cast hcast
          have hall := eq_mean_of_variance_nonpos q (by omega) hvar
          obtain ⟨x, hxq, hxt⟩ := hex
          rw [hall x hxq, hsq0, mul_zero, add_zero] at hxt
          exact (lt_irrefl _ hxt).elim
        · rw [if_neg h2] at hex
          have hl1 : q.length = 1 := by
            have h0 : 0 < q.length := List.length_pos.mpr hqne
            omega
          obtain ⟨x, hx⟩ := List.length_eq_one.mp hl1
          rw [hx] at hex
          obtain ⟨y, hy, hyt⟩ := hex
          have hy' : y = x := by simpa using hy
          subst hy'
          have hmx : listMean [y] = y := by
            simp [listMean]
          rw [hmx, mul_zero, add_zero] at hyt
          exact (lt_irrefl _ hyt).elim
    · rw [hflags]
      split_ifs <;> simp

/-- Witness for `analyze_consumption_spec`: its nonempty-input clause
applied to two concrete observations (quantities 0 and 4). -/
theorem analyze_consumption_spec_witness :
    (analyzeConsumptionPatterns usageList2).base_consumption_rate =
      listMean (usageList2.map (fun u => (u.quantity_used : ℚ))) ∧
    (analyzeConsumptionPatterns usageList2).volatility =
      (if 2 ≤ usageList2.length then
        Real.sqrt (sampleVariance (usageList2.map (fun u => (u.quantity_used : ℚ))))
      else 0) ∧
    (analyzeConsumptionPatterns usageList2).anomaly_flags.length ≤ 1 := by
  have h := (analyze_consumption_spec usageList2).2 (by decide)
  exact ⟨h.1, h.2.1, h.2.2.2.2⟩
